import Mathlib

/-!
Shallow embedding of the job-management core of simple-astro
(src/simpleastro/app.py, src/simpleastro/services/job_handlers.py,
src/simpleastro/validators.py).

Conventions of the embedding:
* Python `datetime.now()` is an explicit time parameter `now : Int`
  (seconds); `timedelta.total_seconds()` is integer subtraction.
* A Python dict keyed by strings is an association list; `getEntry`,
  `setEntry` and `delEntry` mirror `d.get(k)`, `d[k] = v` and `del d[k]`
  (first-occurrence semantics; a dict built through these operations has
  no duplicate keys, which theorems assume via `nodupKeys` where needed).
* Fallible external collaborators (chart generation, the LLM call) are
  parameters describing the outcome of the call, with the exception
  classes of the source as constructors.
-/

namespace SimpleAstro

/-- Lookup in an association list, as Python `d.get(k)`. -/
def getEntry {κ α : Type} [DecidableEq κ] : List (κ × α) → κ → Option α
  | [], _ => none
  | (k, v) :: rest, key => if k = key then some v else getEntry rest key

/-- Assignment `d[k] = v` on an association list: replace the entry in
place when the key is present, append otherwise (Python dict order). -/
def setEntry {κ α : Type} [DecidableEq κ] : List (κ × α) → κ → α → List (κ × α)
  | [], key, v => [(key, v)]
  | (k, w) :: rest, key, v =>
      if k = key then (key, v) :: rest else (k, w) :: setEntry rest key v

/-- Deletion `del d[k]` on an association list (only called on present
keys in the source). -/
def delEntry {κ α : Type} [DecidableEq κ] : List (κ × α) → κ → List (κ × α)
  | [], _ => []
  | (k, w) :: rest, key =>
      if k = key then rest else (k, w) :: delEntry rest key

/-- Association list with no duplicate keys: every store reachable through
the JobStore operations satisfies this. -/
def nodupKeys {κ α : Type} (l : List (κ × α)) : Prop :=
  (l.map Prod.fst).Nodup

/-- Truthiness of an optional string as Python evaluates it: `None` and
the empty string are falsy. -/
def truthy : Option String → Bool
  | none => false
  | some s => s != ""

/-- Job record: the dict created by JobStore.add (app.py lines 124-140).
Timestamps are `Int` seconds; `metadata` is the persisted form-data dict. -/
structure JobRecord where
  status : String
  job_type : String
  substatus : Option String
  chart_job_id : Option String
  filename : Option String
  svg_path : Option String
  error : Option String
  analysis_report : Option String
  analysis_format : Option String
  analysis_started_at : Option Int
  analysis_completed_at : Option Int
  analysis_progress : Int
  created_at : Int
  metadata : List (String × String)
deriving Repr, DecidableEq

/-- Field set passed to JobStore.update in the source.  An outer `none`
means the key is absent from the update dict; `some none` on an
Option-valued field means the key is present with value `None`
(as in `{'filename': None}`). -/
structure Updates where
  status : Option String
  substatus : Option String
  filename : Option (Option String)
  svg_path : Option (Option String)
  error : Option (Option String)
  analysis_report : Option String
  analysis_format : Option String
  analysis_started_at : Option Int
  analysis_completed_at : Option Int
  analysis_progress : Option Int
deriving Repr, DecidableEq

/-- Empty update dict. -/
def noUpdates : Updates :=
  { status := none, substatus := none, filename := none, svg_path := none,
    error := none, analysis_report := none, analysis_format := none,
    analysis_started_at := none, analysis_completed_at := none,
    analysis_progress := none }

/-- Dict merge `record.update(updates)`: each key present in the update
dict overwrites the record's field, all other fields are untouched. -/
def applyUpdates (r : JobRecord) (u : Updates) : JobRecord :=
  { r with
    status := u.status.getD r.status,
    substatus := match u.substatus with | some v => some v | none => r.substatus,
    filename := u.filename.getD r.filename,
    svg_path := u.svg_path.getD r.svg_path,
    error := u.error.getD r.error,
    analysis_report := match u.analysis_report with
      | some v => some v | none => r.analysis_report,
    analysis_format := match u.analysis_format with
      | some v => some v | none => r.analysis_format,
    analysis_started_at := match u.analysis_started_at with
      | some v => some v | none => r.analysis_started_at,
    analysis_completed_at := match u.analysis_completed_at with
      | some v => some v | none => r.analysis_completed_at,
    analysis_progress := u.analysis_progress.getD r.analysis_progress }

/-- JobStore state: the backing dict plus the retention period in seconds
(app.py line 100).  The lock serialises operations; the embedding models
each locked region as one atomic function. -/
structure JobStore where
  jobs : List (String × JobRecord)
  retention_seconds : Int
deriving Repr, DecidableEq

/-- JobStore.add (app.py lines 104-141): insert a brand-new record under
the id, replacing any existing entry (plain dict assignment).  The
substatus is derived from the job type; `metadata or {}` defaults to the
empty dict. -/
def JobStore.add (s : JobStore) (now : Int) (job_id : String)
    (status : String) (job_type : String) (chart_job_id : Option String)
    (metadata : Option (List (String × String))) : JobStore :=
  let substatus :=
    if job_type = "chart" then some "chart_pending"
    else if job_type = "analysis" then some "analysis_pending"
    else none
  let record : JobRecord :=
    { status := status, job_type := job_type, substatus := substatus,
      chart_job_id := chart_job_id, filename := none, svg_path := none,
      error := none, analysis_report := none, analysis_format := none,
      analysis_started_at := none, analysis_completed_at := none,
      analysis_progress := 0, created_at := now,
      metadata := metadata.getD [] }
  { s with jobs := setEntry s.jobs job_id record }

/-- JobStore._is_expired (app.py lines 177-180): age strictly greater
than the retention period. -/
def JobStore.isExpired (s : JobStore) (now : Int) (job : JobRecord) : Bool :=
  now - job.created_at > s.retention_seconds

/-- JobStore.get (app.py lines 143-159): return the record, deleting it
first and returning not-found when it has expired.  The pair is
(returned value, store after the call). -/
def JobStore.get (s : JobStore) (now : Int) (job_id : String) :
    Option JobRecord × JobStore :=
  match getEntry s.jobs job_id with
  | some job =>
      if s.isExpired now job then
        (none, { s with jobs := delEntry s.jobs job_id })
      else (some job, s)
  | none => (none, s)

/-- JobStore.update (app.py lines 161-175): merge the update dict into
the record when the id is present, no-op otherwise. -/
def JobStore.update (s : JobStore) (job_id : String) (u : Updates) : JobStore :=
  match getEntry s.jobs job_id with
  | some job => { s with jobs := setEntry s.jobs job_id (applyUpdates job u) }
  | none => s

/-- Decision used by cleanup_expired for one entry: strictly older than
the retention period. -/
def expiredEntry (retention : Int) (now : Int) (p : String × JobRecord) : Bool :=
  now - p.2.created_at > retention

/-- JobStore.cleanup_expired (app.py lines 182-194): collect the ids of
all expired records, delete each, and return the count removed together
with the resulting store. -/
def JobStore.cleanup_expired (s : JobStore) (now : Int) : Nat × JobStore :=
  let expired_ids :=
    (s.jobs.filter (expiredEntry s.retention_seconds now)).map Prod.fst
  (expired_ids.length,
   { s with jobs := expired_ids.foldl (fun js jid => delEntry js jid) s.jobs })

/-- JobStore.job_count (app.py lines 196-199). -/
def JobStore.job_count (s : JobStore) : Nat :=
  s.jobs.length

/-- Form data as consumed by validate_birth_data (validators.py lines
46-181): each field is the raw form value when the key is present. -/
structure FormData where
  name : Option String
  city : Option String
  region : Option String
  country : Option String
  country_name : Option String
  year : Option String
  month : Option String
  day : Option String
  hour : Option String
  minute : Option String
deriving Repr, DecidableEq

/-- Normalized birth data returned by validate_birth_data. -/
structure ValidatedData where
  name : String
  year : Int
  month : Int
  day : Int
  hour : Int
  minute : Int
  city : String
  region : String
  country : String
deriving Repr, DecidableEq

/-- Leading- and trailing-whitespace removal, as Python str.strip().
Implemented on the character list so it evaluates by kernel reduction. -/
def pyStrip (s : String) : String :=
  ⟨((s.data.dropWhile Char.isWhitespace).reverse.dropWhile
      Char.isWhitespace).reverse⟩

/-- Decimal digit accumulation for pyInt; fails on a non-digit. -/
def digitsToNatAux : List Char → Nat → Option Nat
  | [], acc => some acc
  | c :: rest, acc =>
      if c.isDigit then digitsToNatAux rest (acc * 10 + (c.toNat - 48))
      else none

/-- Nonempty all-digit parse for pyInt. -/
def digitsToNat : List Char → Option Nat
  | [] => none
  | cs => digitsToNatAux cs 0

/-- Conversion int(str) as Python applies it to a form value: optional
surrounding whitespace, an optional sign, then decimal digits (edge
cases such as embedded underscores are outside the modeled grammar). -/
def pyInt (s : String) : Option Int :=
  match (pyStrip s).data with
  | '-' :: rest => (digitsToNat rest).map (fun n => -(n : Int))
  | '+' :: rest => (digitsToNat rest).map (fun n => (n : Int))
  | t => (digitsToNat t).map (fun n => (n : Int))

/-- Conversion `int(form_data.get(key, 0))`: an absent key converts the
default 0, a present string is parsed as a decimal integer. -/
def pyIntField : Option String → Option Int
  | none => some 0
  | some s => pyInt s

/-- Gregorian leap-year rule, as used by datetime. -/
def isLeapYear (y : Int) : Bool :=
  (y % 4 == 0 && y % 100 != 0) || y % 400 == 0

/-- Days in a month, as used by the datetime constructor. -/
def daysInMonth (y m : Int) : Int :=
  if m = 2 then (if isLeapYear y then 29 else 28)
  else if m = 4 ∨ m = 6 ∨ m = 9 ∨ m = 11 then 30
  else 31

/-- Body of validate_birth_data before the outer wrapping handler
(validators.py lines 100-179).  With the field ranges already checked,
the only failure the datetime constructor can raise is a day out of
range for the month. -/
def validateInner (current_year : Int) (f : FormData) : Except String ValidatedData :=
  let name := pyStrip (f.name.getD "")
  if name = "" ∨ name.length > 100 then .error "Name must be 1-100 characters"
  else
  let city := pyStrip (f.city.getD "")
  if city = "" ∨ city.length > 100 then .error "City must be 1-100 characters"
  else
  let region := pyStrip (f.region.getD "")
  if region ≠ "" ∧ region.length > 100 then .error "Region must be 1-100 characters"
  else
  let country0 := if truthy f.country then f.country else f.country_name
  if ¬ truthy country0 then .error "Country is required"
  else
  let country := pyStrip (country0.getD "")
  if country.length > 100 then .error "Country must be 1-100 characters"
  else
  match pyIntField f.year with
  | none => .error "Year must be a valid integer"
  | some year =>
  if ¬ (1900 ≤ year ∧ year ≤ current_year) then
    .error ("Year must be between 1900 and " ++ toString current_year)
  else
  match pyIntField f.month with
  | none => .error "Month must be a valid integer"
  | some month =>
  if ¬ (1 ≤ month ∧ month ≤ 12) then .error "Month must be between 1 and 12"
  else
  match pyIntField f.day with
  | none => .error "Day must be a valid integer"
  | some day =>
  if ¬ (1 ≤ day ∧ day ≤ 31) then .error "Day must be between 1 and 31"
  else
  match pyIntField f.hour with
  | none => .error "Hour must be a valid integer"
  | some hour =>
  if ¬ (0 ≤ hour ∧ hour ≤ 23) then .error "Hour must be between 0 and 23"
  else
  match pyIntField f.minute with
  | none => .error "Minute must be a valid integer"
  | some minute =>
  if ¬ (0 ≤ minute ∧ minute ≤ 59) then .error "Minute must be between 0 and 59"
  else
  if ¬ (day ≤ daysInMonth year month) then
    .error "Invalid date/time: day is out of range for month"
  else
  .ok { name := name, year := year, month := month, day := day,
        hour := hour, minute := minute, city := city, region := region,
        country := country }

/-- validate_birth_data (validators.py lines 46-181): every ValueError
from the body is re-raised with the prefix "Invalid input: ". -/
def validate_birth_data (current_year : Int) (f : FormData) :
    Except String ValidatedData :=
  match validateInner current_year f with
  | .ok v => .ok v
  | .error e => .error ("Invalid input: " ++ e)

/-- Outcome of the chart-generation collaborator as seen by
generate_chart_job: app.generate_chart returns a filename/path pair or
raises ValueError, FileNotFoundError or (via RuntimeError or anything
else) an exception caught by the generic handler. -/
inductive ChartGenOutcome where
  | success (filename : String) (svg_path : String)
  | valueError (msg : String)
  | fileNotFoundError (msg : String)
  | unexpectedError (msg : String)
deriving Repr, DecidableEq

/-- Update dict of step 1 of generate_chart_job (app.py line 285). -/
def chartRunningUpd : Updates :=
  { noUpdates with status := some "running", substatus := some "chart_running" }

/-- Update dict of the chart success path (app.py lines 296-302). -/
def chartDoneUpd (filename svg_path : String) : Updates :=
  { noUpdates with
    status := some "done", substatus := some "chart_done",
    filename := some (some filename), svg_path := some (some svg_path),
    error := some none }

/-- Update dict shared by the three chart error handlers (app.py lines
308-331): status error, result fields cleared, message stored. -/
def chartErrUpd (msg : String) : Updates :=
  { noUpdates with
    status := some "error", filename := some none,
    svg_path := some none, error := some (some msg) }

/-- generate_chart_job (app.py lines 270-331; identical logic in
job_handlers.py lines 16-93 with the collaborators injected): mark the
job running, validate, generate, and write exactly one terminal update. -/
def generate_chart_job (s : JobStore) (current_year : Int) (job_id : String)
    (form_data : FormData) (chart : ChartGenOutcome) : JobStore :=
  let s1 := s.update job_id chartRunningUpd
  match validate_birth_data current_year form_data with
  | .error e => s1.update job_id (chartErrUpd e)
  | .ok _validated =>
    match chart with
    | .success fn sp => s1.update job_id (chartDoneUpd fn sp)
    | .valueError m => s1.update job_id (chartErrUpd m)
    | .fileNotFoundError m =>
        s1.update job_id (chartErrUpd ("Chart generation failed: " ++ m))
    | .unexpectedError m =>
        s1.update job_id (chartErrUpd ("Unexpected error: " ++ m))

/-- Update dict of step 1 of generate_analysis_job (app.py lines 348-353). -/
def analysisRunningUpd (now : Int) : Updates :=
  { noUpdates with
    status := some "running", substatus := some "analysis_running",
    analysis_started_at := some now, analysis_progress := some 0 }

/-- Progress-only update dict (app.py lines 373, 407, 413). -/
def progressUpd (p : Int) : Updates :=
  { noUpdates with analysis_progress := some p }

/-- Update dict of the analysis success path (app.py lines 416-423). -/
def analysisDoneUpd (report : String) (now : Int) : Updates :=
  { noUpdates with
    analysis_report := some report,
    analysis_format := some "markdown", analysis_progress := some 100,
    analysis_completed_at := some now, substatus := some "analysis_done",
    status := some "done" }

/-- Update dict of the analysis error handler (app.py lines 429-434). -/
def analysisErrUpd (msg : String) (now : Int) : Updates :=
  { noUpdates with
    status := some "error", substatus := some "analysis_error",
    error := some (some msg), analysis_completed_at := some now }

/-- Person name recovered from a chart filename (app.py line 378): strip
the " - Natal Chart" marker and keep the part before the first " - ". -/
def personFromFilename (filename : String) : String :=
  ((filename.replace " - Natal Chart" "").splitOn " - ").headD ""

/-- Fallback expression chart_job.get('filename', '').replace(...): the
filename key always exists, so a stored None hits None.replace and
raises AttributeError with the CPython message. -/
def personNameFallback : Option String → Except String String
  | some f => .ok (personFromFilename f)
  | none => .error "\x27NoneType\x27 object has no attribute \x27replace\x27"

/-- Person-name computation of generate_analysis_job (app.py lines
376-392): metadata name when truthy, otherwise the filename fallback. -/
def personName (metadata : List (String × String)) (filename : Option String) :
    Except String String :=
  if metadata ≠ [] then
    match getEntry metadata "name" with
    | some n => if n = "" then personNameFallback filename else .ok n
    | none => personNameFallback filename
  else personNameFallback filename

/-- Result of one run of generate_analysis_job: the final store, whether
the LLM collaborator was invoked, and the sequence of update dicts the
body wrote to the store, in order. -/
structure AnalysisRun where
  store : JobStore
  llmInvoked : Bool
  trace : List Updates
deriving Repr, DecidableEq

/-- Error handler of generate_analysis_job (app.py lines 427-434),
reached from every raise site of the body. -/
def finishAnalysisErr (s : JobStore) (job_id : String) (now : Int)
    (msg : String) (tr : List Updates) (invoked : Bool) : AnalysisRun :=
  { store := s.update job_id (analysisErrUpd msg now),
    llmInvoked := invoked, trace := tr ++ [analysisErrUpd msg now] }

/-- generate_analysis_job (app.py lines 335-434; identical logic in
job_handlers.py lines 96-213 with the collaborators injected).  The LLM
call is an outcome parameter; the chart_data dict built for it is pure
dict construction and only flows into that collaborator, so its fields
are not modeled beyond the fallible person-name computation. -/
def generate_analysis_job (s : JobStore) (now : Int) (job_id : String)
    (chart_job_id : Option String) (llm : Except String String) : AnalysisRun :=
  let u0 := analysisRunningUpd now
  let s1 := s.update job_id u0
  let g1 := s1.get now job_id
  match g1.1 with
  | none => finishAnalysisErr g1.2 job_id now "Analysis job not found" [u0] false
  | some analysis_job =>
    let stored := if truthy analysis_job.chart_job_id then
      analysis_job.chart_job_id else chart_job_id
    match stored with
    | none =>
        finishAnalysisErr g1.2 job_id now
          "chart_job_id not provided and not found in job metadata" [u0] false
    | some cid =>
      if cid = "" then
        finishAnalysisErr g1.2 job_id now
          "chart_job_id not provided and not found in job metadata" [u0] false
      else
        let g2 := g1.2.get now cid
        match g2.1 with
        | none =>
            finishAnalysisErr g2.2 job_id now
              ("Referenced chart job not found or expired: " ++ cid) [u0] false
        | some chart_job =>
          if chart_job.status ≠ "done" ∨ ¬ truthy chart_job.svg_path then
            finishAnalysisErr g2.2 job_id now
              "Referenced chart is not available (chart must be done)" [u0] false
          else
            let s4 := g2.2.update job_id (progressUpd 10)
            match personName chart_job.metadata chart_job.filename with
            | .error m =>
                finishAnalysisErr s4 job_id now m [u0, progressUpd 10] false
            | .ok _person_name =>
              let s5 := s4.update job_id (progressUpd 20)
              match llm with
              | .error m =>
                  finishAnalysisErr s5 job_id now m
                    [u0, progressUpd 10, progressUpd 20] true
              | .ok report =>
                let s6 := s5.update job_id (progressUpd 90)
                let s7 := s6.update job_id (analysisDoneUpd report now)
                { store := s7, llmInvoked := true,
                  trace := [u0, progressUpd 10, progressUpd 20,
                            progressUpd 90, analysisDoneUpd report now] }

/-- JobStore with Python object identity made explicit: addrOf is the
backing dict mapping ids to object references, heap maps each reference
to the current contents of its record dict.  get hands back the object
reference itself (app.py line 159, `return job`) and update mutates the
referenced dict in place (app.py line 171); a deleted dict entry does
not destroy an object a caller still references. -/
structure RefJobStore where
  addrOf : List (String × Nat)
  heap : List (Nat × JobRecord)
  retention_seconds : Int
deriving Repr, DecidableEq

/-- Reading a record through a reference previously returned by get. -/
def RefJobStore.deref (s : RefJobStore) (a : Nat) : Option JobRecord :=
  getEntry s.heap a

/-- JobStore.get under reference semantics (app.py lines 143-159). -/
def RefJobStore.get (s : RefJobStore) (now : Int) (job_id : String) :
    Option Nat × RefJobStore :=
  match getEntry s.addrOf job_id with
  | some a =>
      match getEntry s.heap a with
      | some job =>
          if now - job.created_at > s.retention_seconds then
            (none, { s with addrOf := delEntry s.addrOf job_id })
          else (some a, s)
      | none => (none, s)
  | none => (none, s)

/-- JobStore.update under reference semantics (app.py lines 161-175):
the record dict is mutated in place, visible through every live
reference to it. -/
def RefJobStore.update (s : RefJobStore) (job_id : String) (u : Updates) :
    RefJobStore :=
  match getEntry s.addrOf job_id with
  | some a =>
      match getEntry s.heap a with
      | some job => { s with heap := setEntry s.heap a (applyUpdates job u) }
      | none => s
  | none => s

/-- Fresh chart record as JobStore.add creates it, for concrete stores. -/
def sampleRecord (created : Int) : JobRecord :=
  { status := "pending", job_type := "chart", substatus := some "chart_pending",
    chart_job_id := none, filename := none, svg_path := none, error := none,
    analysis_report := none, analysis_format := none,
    analysis_started_at := none, analysis_completed_at := none,
    analysis_progress := 0, created_at := created, metadata := [] }

/-- One-record store with a 60-second retention window. -/
def sampleStore : JobStore :=
  { jobs := [("k", sampleRecord 0)], retention_seconds := 60 }

/-- Two-record store: at time 100 the first record is expired and the
second is not. -/
def sampleStore2 : JobStore :=
  { jobs := [("old", sampleRecord 0), ("new", sampleRecord 100)],
    retention_seconds := 60 }

/-- Completed chart record, as left by the chart success path. -/
def doneChartRecord : JobRecord :=
  { sampleRecord 0 with
    status := "done"
    substatus := some "chart_done"
    filename := some "John - Natal Chart - c1.svg"
    svg_path := some "/charts/John - Natal Chart - c1.svg"
    metadata := [("name", "John")] }

/-- Chart record still running (not yet done). -/
def runningChartRecord : JobRecord :=
  { sampleRecord 0 with
    status := "running"
    substatus := some "chart_running" }

/-- Fresh analysis record referencing chart job c1. -/
def analysisRecord : JobRecord :=
  { sampleRecord 0 with
    job_type := "analysis"
    substatus := some "analysis_pending"
    chart_job_id := some "c1" }

/-- Analysis job plus its completed chart dependency. -/
def analysisStore : JobStore :=
  { jobs := [("a1", analysisRecord), ("c1", doneChartRecord)],
    retention_seconds := 3600 }

/-- Analysis job whose chart dependency exists but is not done. -/
def analysisStoreNotReady : JobStore :=
  { jobs := [("a1", analysisRecord), ("c1", runningChartRecord)],
    retention_seconds := 3600 }

/-- Analysis job whose chart dependency is absent from the store. -/
def analysisStoreNoChart : JobStore :=
  { jobs := [("a1", analysisRecord)], retention_seconds := 3600 }

/-- Reference-semantics store with one record at address 0. -/
def sampleRefStore : RefJobStore :=
  { addrOf := [("k", 0)], heap := [(0, sampleRecord 0)],
    retention_seconds := 3600 }

/-- Update dict setting only the filename. -/
def filenameUpd (v : String) : Updates :=
  { noUpdates with filename := some (some v) }

/-- Update dict setting only the svg path. -/
def svgPathUpd (v : String) : Updates :=
  { noUpdates with svg_path := some (some v) }

/-- Form data with every field in range except the month. -/
def badMonthForm : FormData :=
  { name := some "John Doe", city := some "Boston", region := some "MA",
    country := some "USA", country_name := none, year := some "1990",
    month := some "13", day := some "15", hour := some "10",
    minute := some "30" }

/-- Form data with every field in range. -/
def goodForm : FormData :=
  { badMonthForm with month := some "5" }

/-- Record inserted by JobStore.add, named for reuse in statements. -/
def addedRecord (now : Int) (status job_type : String)
    (chart_job_id : Option String)
    (metadata : Option (List (String × String))) : JobRecord :=
  { status := status, job_type := job_type,
    substatus := if job_type = "chart" then some "chart_pending"
      else if job_type = "analysis" then some "analysis_pending" else none,
    chart_job_id := chart_job_id, filename := none, svg_path := none,
    error := none, analysis_report := none, analysis_format := none,
    analysis_started_at := none, analysis_completed_at := none,
    analysis_progress := 0, created_at := now, metadata := metadata.getD [] }

instance nodupKeysDecidable {κ α : Type} [DecidableEq κ] (l : List (κ × α)) :
    Decidable (nodupKeys l) :=
  inferInstanceAs (Decidable (l.map Prod.fst).Nodup)

instance exceptDecidableEq {ε α : Type} [DecidableEq ε] [DecidableEq α] :
    DecidableEq (Except ε α)
  | .ok x, .ok y =>
      if h : x = y then isTrue (by rw [h])
      else isFalse (by intro hc; injection hc; contradiction)
  | .ok _, .error _ => isFalse (fun hc => Except.noConfusion hc)
  | .error _, .ok _ => isFalse (fun hc => Except.noConfusion hc)
  | .error d, .error e =>
      if h : d = e then isTrue (by rw [h])
      else isFalse (by intro hc; injection hc; contradiction)

section AssocLemmas

variable {κ α : Type} [DecidableEq κ]

theorem getEntry_setEntry_self (js : List (κ × α)) (k : κ) (v : α) :
    getEntry (setEntry js k v) k = some v := by
  induction js with
  | nil => simp [setEntry, getEntry]
  | cons p rest ih =>
    obtain ⟨k', v'⟩ := p
    by_cases h : k' = k
    · subst h; simp [setEntry, getEntry]
    · simp [setEntry, getEntry, h, ih]

theorem getEntry_setEntry_ne (js : List (κ × α)) (k k' : κ) (v : α)
    (h : k' ≠ k) : getEntry (setEntry js k v) k' = getEntry js k' := by
  have hne : ¬ k = k' := fun hh => h hh.symm
  induction js with
  | nil => simp [setEntry, getEntry, hne]
  | cons p rest ih =>
    obtain ⟨a, b⟩ := p
    by_cases ha : a = k
    · subst ha; simp [setEntry, getEntry, hne]
    · simp only [setEntry, if_neg ha, getEntry]
      by_cases hb : a = k'
      · simp [hb]
      · simp [hb, ih]

theorem getEntry_delEntry_ne (js : List (κ × α)) (k k' : κ)
    (h : k' ≠ k) : getEntry (delEntry js k) k' = getEntry js k' := by
  induction js with
  | nil => simp [delEntry]
  | cons p rest ih =>
    obtain ⟨a, b⟩ := p
    by_cases ha : a = k
    · subst ha
      have hne : ¬ a = k' := fun hh => h (hh.symm)
      simp [delEntry, getEntry, hne]
    · simp only [delEntry, if_neg ha, getEntry]
      by_cases hb : a = k'
      · simp [hb]
      · simp [hb, ih]

theorem delEntry_sublist (js : List (κ × α)) (k : κ) :
    List.Sublist (delEntry js k) js := by
  induction js with
  | nil => simp [delEntry]
  | cons p rest ih =>
    obtain ⟨a, b⟩ := p
    by_cases ha : a = k
    · simpa [delEntry, ha] using List.sublist_cons (a, b) rest
    · simpa [delEntry, ha] using ih.cons₂ (a, b)

theorem nodupKeys_delEntry (js : List (κ × α)) (k : κ)
    (h : nodupKeys js) : nodupKeys (delEntry js k) :=
  List.Nodup.sublist ((delEntry_sublist js k).map Prod.fst) h

theorem getEntry_eq_none_of_not_mem_keys (js : List (κ × α)) (k : κ)
    (h : k ∉ js.map Prod.fst) : getEntry js k = none := by
  induction js with
  | nil => rfl
  | cons p rest ih =>
    obtain ⟨a, b⟩ := p
    simp only [List.map_cons, List.mem_cons, not_or] at h
    have hne : ¬ a = k := fun hh => h.1 hh.symm
    simp [getEntry, hne, ih h.2]

theorem mem_of_getEntry_eq_some (js : List (κ × α)) (k : κ) (v : α)
    (h : getEntry js k = some v) : (k, v) ∈ js := by
  induction js with
  | nil => simp [getEntry] at h
  | cons p rest ih =>
    obtain ⟨a, b⟩ := p
    simp only [getEntry] at h
    by_cases ha : a = k
    · subst ha
      rw [if_pos rfl] at h
      injection h with h
      subst h
      exact List.mem_cons_self _ _
    · rw [if_neg ha] at h
      exact List.mem_cons_of_mem _ (ih h)

theorem getEntry_delEntry_self (js : List (κ × α)) (k : κ)
    (h : nodupKeys js) : getEntry (delEntry js k) k = none := by
  induction js with
  | nil => rfl
  | cons p rest ih =>
    obtain ⟨a, b⟩ := p
    simp only [nodupKeys, List.map_cons, List.nodup_cons] at h
    by_cases ha : a = k
    · subst ha
      simpa [delEntry] using getEntry_eq_none_of_not_mem_keys rest a h.1
    · simp [delEntry, ha, getEntry, ih h.2]

theorem eq_of_mem_of_keys_eq (js : List (κ × α)) (p q : κ × α)
    (h : nodupKeys js) (hp : p ∈ js) (hq : q ∈ js) (hk : p.1 = q.1) :
    p = q := by
  induction js with
  | nil => simp at hp
  | cons x rest ih =>
    simp only [nodupKeys, List.map_cons, List.nodup_cons] at h
    rcases List.mem_cons.mp hp with hp1 | hp1 <;>
      rcases List.mem_cons.mp hq with hq1 | hq1
    · rw [hp1, hq1]
    · exfalso
      apply h.1
      have hm : q.1 ∈ List.map Prod.fst rest := List.mem_map_of_mem Prod.fst hq1
      rw [hp1] at hk
      rw [← hk] at hm
      exact hm
    · exfalso
      apply h.1
      have hm : p.1 ∈ List.map Prod.fst rest := List.mem_map_of_mem Prod.fst hp1
      rw [hq1] at hk
      rw [hk] at hm
      exact hm
    · exact ih h.2 hp1 hq1

end AssocLemmas

section StoreLemmas

theorem getEntry_update_self (s : JobStore) (id : String) (u : Updates)
    (r : JobRecord) (h : getEntry s.jobs id = some r) :
    getEntry (s.update id u).jobs id = some (applyUpdates r u) := by
  simp [JobStore.update, h, getEntry_setEntry_self]

theorem getEntry_update_ne (s : JobStore) (id k : String) (u : Updates)
    (h : k ≠ id) : getEntry (s.update id u).jobs k = getEntry s.jobs k := by
  unfold JobStore.update
  cases hg : getEntry s.jobs id with
  | some job => simp [getEntry_setEntry_ne s.jobs id k _ h]
  | none => rfl

theorem update_retention (s : JobStore) (id : String) (u : Updates) :
    (s.update id u).retention_seconds = s.retention_seconds := by
  unfold JobStore.update
  cases getEntry s.jobs id <;> rfl

theorem update_noop (s : JobStore) (id : String) (u : Updates)
    (h : getEntry s.jobs id = none) : s.update id u = s := by
  simp [JobStore.update, h]

theorem applyUpdates_created_at (r : JobRecord) (u : Updates) :
    (applyUpdates r u).created_at = r.created_at := rfl

theorem getEntry_add_self (s : JobStore) (now : Int) (id st jt : String)
    (cid : Option String) (md : Option (List (String × String))) :
    getEntry ((s.add now id st jt cid md)).jobs id
      = some (addedRecord now st jt cid md) := by
  simp [JobStore.add, addedRecord, getEntry_setEntry_self]

theorem get_of_live (s : JobStore) (now : Int) (id : String) (r : JobRecord)
    (h : getEntry s.jobs id = some r)
    (hl : now - r.created_at ≤ s.retention_seconds) :
    s.get now id = (some r, s) := by
  have he : s.isExpired now r = false := by
    simp only [JobStore.isExpired, decide_eq_false_iff_not, not_lt]
    omega
  simp [JobStore.get, h, he]

theorem get_of_expired (s : JobStore) (now : Int) (id : String) (r : JobRecord)
    (h : getEntry s.jobs id = some r)
    (hg : now - r.created_at > s.retention_seconds) :
    s.get now id = (none, { s with jobs := delEntry s.jobs id }) := by
  have he : s.isExpired now r = true := by
    simp only [JobStore.isExpired, decide_eq_true_eq]
    omega
  simp [JobStore.get, h, he]

theorem get_of_absent (s : JobStore) (now : Int) (id : String)
    (h : getEntry s.jobs id = none) : s.get now id = (none, s) := by
  simp [JobStore.get, h]

end StoreLemmas

/-- C1: for every record in the store and every read time, get returns
the record if and only if its age is at most the retention period; on an
expired record the same get call removes it from the store and returns
not-found.  Age exactly equal to the threshold is still visible, which
the boundary witness exercises. -/
theorem claim_get_ttl_visibility (s : JobStore) (now : Int) (id : String)
    (r : JobRecord) (hmem : getEntry s.jobs id = some r)
    (hnd : nodupKeys s.jobs) :
    ((s.get now id).1 = some r ↔ now - r.created_at ≤ s.retention_seconds) ∧
    (now - r.created_at > s.retention_seconds →
      (s.get now id).1 = none ∧ getEntry (s.get now id).2.jobs id = none) := by
  rcases le_or_lt (now - r.created_at) s.retention_seconds with hle | hgt
  · rw [get_of_live s now id r hmem hle]
    exact ⟨by simp [hle], fun hgt => absurd hgt (not_lt.mpr hle)⟩
  · rw [get_of_expired s now id r hmem hgt]
    constructor
    · simp only [Option.some.injEq]
      constructor
      · intro hc; exact absurd hc (by simp)
      · intro hle; exact absurd hgt (not_lt.mpr hle)
    · intro _
      exact ⟨rfl, getEntry_delEntry_self s.jobs id hnd⟩

/-- Witness for C1 at the boundary ages: with a 60-second retention and a
record created at time 0, reads at times 60 (age = threshold, visible)
and 61 (age = threshold + 1, removed) both instantiate the theorem. -/
theorem claim_get_ttl_visibility_witness :
    ((((sampleStore.get 60 "k").1 = some (sampleRecord 0) ↔
        (60 : Int) - (sampleRecord 0).created_at ≤ sampleStore.retention_seconds) ∧
      ((60 : Int) - (sampleRecord 0).created_at > sampleStore.retention_seconds →
        (sampleStore.get 60 "k").1 = none ∧
        getEntry (sampleStore.get 60 "k").2.jobs "k" = none)) ∧
     (((sampleStore.get 61 "k").1 = some (sampleRecord 0) ↔
        (61 : Int) - (sampleRecord 0).created_at ≤ sampleStore.retention_seconds) ∧
      ((61 : Int) - (sampleRecord 0).created_at > sampleStore.retention_seconds →
        (sampleStore.get 61 "k").1 = none ∧
        getEntry (sampleStore.get 61 "k").2.jobs "k" = none))) :=
  ⟨claim_get_ttl_visibility sampleStore 60 "k" (sampleRecord 0)
      (by decide) (by decide),
   claim_get_ttl_visibility sampleStore 61 "k" (sampleRecord 0)
      (by decide) (by decide)⟩

section CleanupLemmas

variable {κ α : Type} [DecidableEq κ]

theorem nodupKeys_filter (js : List (κ × α)) (f : κ × α → Bool)
    (h : nodupKeys js) : nodupKeys (js.filter f) :=
  List.Nodup.sublist ((List.filter_sublist js).map Prod.fst) h

theorem delEntry_eq_filter (js : List (κ × α)) (k : κ) (h : nodupKeys js) :
    delEntry js k = js.filter (fun p => p.1 != k) := by
  induction js with
  | nil => rfl
  | cons p rest ih =>
    obtain ⟨a, b⟩ := p
    simp only [nodupKeys, List.map_cons, List.nodup_cons] at h
    by_cases ha : a = k
    · subst ha
      have hr : rest.filter (fun p => p.1 != a) = rest := by
        apply List.filter_eq_self.mpr
        intro p hp
        have hne : p.1 ≠ a := fun hh => h.1 (hh ▸ List.mem_map_of_mem Prod.fst hp)
        simpa using hne
      simp [delEntry, hr]
    · have hne : (a != k) = true := by simpa using ha
      simp [delEntry, ha, hne, ih h.2]

theorem foldl_delEntry_eq_filter (L : List κ) (js : List (κ × α))
    (h : nodupKeys js) :
    L.foldl (fun acc jid => delEntry acc jid) js
      = js.filter (fun p => decide (p.1 ∉ L)) := by
  induction L generalizing js with
  | nil => simp
  | cons a L ih =>
    rw [List.foldl_cons, ih (delEntry js a) (nodupKeys_delEntry js a h),
        delEntry_eq_filter js a h, List.filter_filter]
    apply List.filter_congr
    intro p hp
    by_cases h1 : p.1 = a <;> by_cases h2 : p.1 ∈ L <;> simp [h1, h2]

theorem getEntry_filter (js : List (κ × α)) (f : κ × α → Bool) (k : κ)
    (h : nodupKeys js) :
    getEntry (js.filter f) k = (match getEntry js k with
      | some v => if f (k, v) then some v else none
      | none => none) := by
  induction js with
  | nil => rfl
  | cons p rest ih =>
    obtain ⟨a, b⟩ := p
    simp only [nodupKeys, List.map_cons, List.nodup_cons] at h
    by_cases ha : a = k
    · subst ha
      by_cases hf : f (a, b)
      · simp [hf, getEntry]
      · have hnone : getEntry (rest.filter f) a = none := by
          apply getEntry_eq_none_of_not_mem_keys
          intro hmem
          have hsub : rest.filter f ⊆ rest := (List.filter_sublist rest).subset
          exact h.1 (List.map_subset Prod.fst hsub hmem)
        simp [hf, getEntry, hnone]
    · by_cases hf : f (a, b) <;> simp [hf, getEntry, ha, ih h.2]

end CleanupLemmas

theorem mem_expiredIds_iff (s : JobStore) (now : Int) (h : nodupKeys s.jobs)
    (p : String × JobRecord) (hp : p ∈ s.jobs) :
    p.1 ∈ (s.jobs.filter (expiredEntry s.retention_seconds now)).map Prod.fst
      ↔ expiredEntry s.retention_seconds now p = true := by
  constructor
  · intro hm
    rcases List.mem_map.mp hm with ⟨q, hq, hqeq⟩
    have hq' : q ∈ s.jobs := List.mem_of_mem_filter hq
    have heq : q = p := eq_of_mem_of_keys_eq s.jobs q p h hq' hp hqeq
    exact heq ▸ List.of_mem_filter hq
  · intro he
    exact List.mem_map_of_mem Prod.fst (List.mem_filter.mpr ⟨hp, he⟩)

theorem cleanup_jobs_eq (s : JobStore) (now : Int) (h : nodupKeys s.jobs) :
    (s.cleanup_expired now).2.jobs
      = s.jobs.filter (fun p => !(expiredEntry s.retention_seconds now p)) := by
  unfold JobStore.cleanup_expired
  simp only
  rw [foldl_delEntry_eq_filter _ _ h]
  apply List.filter_congr
  intro p hp
  have hiff := mem_expiredIds_iff s now h p hp
  by_cases he : expiredEntry s.retention_seconds now p = true
  · simp [he, hiff.mpr he]
  · have hnm : p.1 ∉ (s.jobs.filter (expiredEntry s.retention_seconds now)).map Prod.fst :=
      fun hm => he (hiff.mp hm)
    simp only [Bool.not_eq_true] at he
    simp [he, hnm]

theorem cleanup_retention (s : JobStore) (now : Int) :
    (s.cleanup_expired now).2.retention_seconds = s.retention_seconds := rfl

/-- C4: cleanup_expired removes exactly the records whose age is strictly
greater than the retention period and returns their count; afterwards a
get on a removed id is not-found, and every record within retention is
still present, unchanged. -/
theorem claim_cleanup_expired (s : JobStore) (now : Int)
    (h : nodupKeys s.jobs) :
    ((s.cleanup_expired now).1
       = (s.jobs.filter (expiredEntry s.retention_seconds now)).length) ∧
    ((s.cleanup_expired now).2.jobs
       = s.jobs.filter (fun p => !(expiredEntry s.retention_seconds now p))) ∧
    (∀ id r, getEntry s.jobs id = some r →
        now - r.created_at > s.retention_seconds →
        getEntry (s.cleanup_expired now).2.jobs id = none ∧
        ((s.cleanup_expired now).2.get now id).1 = none) ∧
    (∀ id r, getEntry s.jobs id = some r →
        now - r.created_at ≤ s.retention_seconds →
        getEntry (s.cleanup_expired now).2.jobs id = some r) := by
  have hjobs := cleanup_jobs_eq s now h
  refine ⟨by simp [JobStore.cleanup_expired], hjobs, ?_, ?_⟩
  · intro id r hmem hexp
    have hget : getEntry (s.cleanup_expired now).2.jobs id = none := by
      rw [hjobs, getEntry_filter _ _ _ h, hmem]
      have : expiredEntry s.retention_seconds now (id, r) = true := by
        simp only [expiredEntry, decide_eq_true_eq]
        exact hexp
      simp [this]
    exact ⟨hget, by rw [get_of_absent _ now id hget]⟩
  · intro id r hmem hlive
    rw [hjobs, getEntry_filter _ _ _ h, hmem]
    have : expiredEntry s.retention_seconds now (id, r) = false := by
      simp only [expiredEntry, decide_eq_false_iff_not, not_lt]
      exact hlive
    simp [this]

/-- Witness for C4: at time 100 on a store holding a record created at 0
and one created at 100 with a 60-second retention, the sweep removes
exactly the old record and returns count 1. -/
theorem claim_cleanup_expired_witness :
    ((sampleStore2.cleanup_expired 100).1
       = (sampleStore2.jobs.filter
           (expiredEntry sampleStore2.retention_seconds 100)).length) ∧
    ((sampleStore2.cleanup_expired 100).2.jobs
       = sampleStore2.jobs.filter
           (fun p => !(expiredEntry sampleStore2.retention_seconds 100 p))) ∧
    (∀ id r, getEntry sampleStore2.jobs id = some r →
        (100 : Int) - r.created_at > sampleStore2.retention_seconds →
        getEntry (sampleStore2.cleanup_expired 100).2.jobs id = none ∧
        ((sampleStore2.cleanup_expired 100).2.get 100 id).1 = none) ∧
    (∀ id r, getEntry sampleStore2.jobs id = some r →
        (100 : Int) - r.created_at ≤ sampleStore2.retention_seconds →
        getEntry (sampleStore2.cleanup_expired 100).2.jobs id = some r) :=
  claim_cleanup_expired sampleStore2 100 (by decide)

/-- C7: update merges the given fields into the existing record; two
successive single-field updates leave both values in place and every
field not named in either update unchanged, and update is a no-op on an
absent id (it never resurrects an evicted record). -/
theorem claim_update_merge (s : JobStore) (id : String) (r : JobRecord)
    (h : getEntry s.jobs id = some r) (a b : String) :
    (∃ r2, getEntry ((s.update id (filenameUpd a)).update id
        (svgPathUpd b)).jobs id = some r2 ∧
      r2.filename = some a ∧ r2.svg_path = some b ∧
      r2.status = r.status ∧ r2.job_type = r.job_type ∧
      r2.substatus = r.substatus ∧ r2.chart_job_id = r.chart_job_id ∧
      r2.error = r.error ∧ r2.analysis_report = r.analysis_report ∧
      r2.analysis_format = r.analysis_format ∧
      r2.analysis_started_at = r.analysis_started_at ∧
      r2.analysis_completed_at = r.analysis_completed_at ∧
      r2.analysis_progress = r.analysis_progress ∧
      r2.created_at = r.created_at ∧ r2.metadata = r.metadata) ∧
    (∀ (s2 : JobStore) (k : String) (u : Updates),
        getEntry s2.jobs k = none → s2.update k u = s2) := by
  have h1 := getEntry_update_self s id (filenameUpd a) r h
  have h2 := getEntry_update_self _ id (svgPathUpd b) _ h1
  refine ⟨⟨_, h2, ?_⟩, fun s2 k u hn => update_noop s2 k u hn⟩
  simp [applyUpdates, filenameUpd, svgPathUpd, noUpdates]

/-- Witness for C7 on the one-record sample store. -/
theorem claim_update_merge_witness :
    (∃ r2, getEntry ((sampleStore.update "k" (filenameUpd "a.svg")).update "k"
        (svgPathUpd "/p/b.svg")).jobs "k" = some r2 ∧
      r2.filename = some "a.svg" ∧ r2.svg_path = some "/p/b.svg" ∧
      r2.status = (sampleRecord 0).status ∧
      r2.job_type = (sampleRecord 0).job_type ∧
      r2.substatus = (sampleRecord 0).substatus ∧
      r2.chart_job_id = (sampleRecord 0).chart_job_id ∧
      r2.error = (sampleRecord 0).error ∧
      r2.analysis_report = (sampleRecord 0).analysis_report ∧
      r2.analysis_format = (sampleRecord 0).analysis_format ∧
      r2.analysis_started_at = (sampleRecord 0).analysis_started_at ∧
      r2.analysis_completed_at = (sampleRecord 0).analysis_completed_at ∧
      r2.analysis_progress = (sampleRecord 0).analysis_progress ∧
      r2.created_at = (sampleRecord 0).created_at ∧
      r2.metadata = (sampleRecord 0).metadata) ∧
    (∀ (s2 : JobStore) (k : String) (u : Updates),
        getEntry s2.jobs k = none → s2.update k u = s2) :=
  claim_update_merge sampleStore "k" (sampleRecord 0) (by decide) "a.svg" "/p/b.svg"

/-- C10: add on an id already present never fails; it silently replaces
the whole record with a brand-new pending record whose created_at is the
current time, discarding every previously stored field.  In the model
add is a total function, so absence of failure is inherent; the equation
exhibits the full replacement record. -/
theorem claim_add_replaces (s : JobStore) (now : Int) (id : String)
    (jt : String) (cid : Option String) (md : Option (List (String × String)))
    (r_old : JobRecord) (h : getEntry s.jobs id = some r_old) :
    getEntry ((s.add now id "pending" jt cid md)).jobs id = some
      { status := "pending", job_type := jt,
        substatus := if jt = "chart" then some "chart_pending"
          else if jt = "analysis" then some "analysis_pending" else none,
        chart_job_id := cid, filename := none, svg_path := none, error := none,
        analysis_report := none, analysis_format := none,
        analysis_started_at := none, analysis_completed_at := none,
        analysis_progress := 0, created_at := now, metadata := md.getD [] } := by
  simp [JobStore.add, getEntry_setEntry_self]

/-- Witness for C10: re-adding the existing id of the sample store at
time 42 yields the fresh pending chart record created at 42. -/
theorem claim_add_replaces_witness :
    getEntry ((sampleStore.add 42 "k" "pending" "chart" none none)).jobs "k"
      = some
      { status := "pending", job_type := "chart",
        substatus := if "chart" = "chart" then some "chart_pending"
          else if "chart" = "analysis" then some "analysis_pending" else none,
        chart_job_id := none, filename := none, svg_path := none, error := none,
        analysis_report := none, analysis_format := none,
        analysis_started_at := none, analysis_completed_at := none,
        analysis_progress := 0, created_at := 42,
        metadata := (none : Option (List (String × String))).getD [] } :=
  claim_add_replaces sampleStore 42 "k" "chart" none none (sampleRecord 0)
    (by decide)

/-- C2 counterexample: get returns the backing record itself, not a
snapshot.  The caller receives reference 0 from get; after a subsequent
update on the same id, reading through that same reference no longer
yields the original record, so the value received from get was changed
by the update, contradicting the claim at this concrete input. -/
theorem claim_get_snapshot_counterexample :
    (sampleRefStore.get 0 "k").1 = some 0 ∧
    sampleRefStore.deref 0 = some (sampleRecord 0) ∧
    ((sampleRefStore.get 0 "k").2.update "k" (filenameUpd "f.svg")).deref 0
      ≠ some (sampleRecord 0) := by decide

/-- C2 amended: get returns a live mutable alias of the backing record,
not a copy: a subsequent update on the same id is visible through the
reference a caller previously received from get, which then reads
exactly the merged record. -/
theorem claim_get_live_alias (s : RefJobStore) (now : Int) (id : String)
    (a : Nat) (r : JobRecord) (haddr : getEntry s.addrOf id = some a)
    (hheap : getEntry s.heap a = some r)
    (hlive : now - r.created_at ≤ s.retention_seconds) (u : Updates) :
    (s.get now id).1 = some a ∧
    ((s.get now id).2.update id u).deref a = some (applyUpdates r u) := by
  have hexp : ¬ (now - r.created_at > s.retention_seconds) := not_lt.mpr hlive
  have hget : s.get now id = (some a, s) := by
    simp [RefJobStore.get, haddr, hheap, hexp]
  rw [hget]
  refine ⟨rfl, ?_⟩
  simp [RefJobStore.update, RefJobStore.deref, haddr, hheap,
    getEntry_setEntry_self]

/-- Witness for the amended C2 on the sample reference store. -/
theorem claim_get_live_alias_witness :
    (sampleRefStore.get 0 "k").1 = some 0 ∧
    ((sampleRefStore.get 0 "k").2.update "k" (filenameUpd "f.svg")).deref 0
      = some (applyUpdates (sampleRecord 0) (filenameUpd "f.svg")) :=
  claim_get_live_alias sampleRefStore 0 "k" 0 (sampleRecord 0)
    (by decide) (by decide) (by decide) (filenameUpd "f.svg")

theorem append_ne_empty_left (a b : String) (h : a ≠ "") : a ++ b ≠ "" := by
  intro hc
  apply h
  have hl := congrArg String.length hc
  rw [String.length_append] at hl
  have ha : a.length = 0 := by simp at hl; omega
  cases a with
  | mk data =>
    simp [String.length] at ha
    simp [ha]

theorem get_preserves_live_entry (s : JobStore) (now : Int) (k id : String)
    (r : JobRecord) (h : getEntry s.jobs id = some r)
    (hlive : now - r.created_at ≤ s.retention_seconds) :
    getEntry ((s.get now k).2).jobs id = some r ∧
    ((s.get now k).2).retention_seconds = s.retention_seconds := by
  unfold JobStore.get
  cases hk : getEntry s.jobs k with
  | none => exact ⟨h, rfl⟩
  | some j =>
    by_cases he : s.isExpired now j
    · simp only [he, if_true]
      constructor
      · by_cases hkid : k = id
        · subst hkid
          rw [h] at hk
          injection hk with hk
          subst hk
          simp only [JobStore.isExpired, decide_eq_true_eq] at he
          omega
        · rw [getEntry_delEntry_ne s.jobs k id (fun hh => hkid hh.symm)]
          exact h
      · trivial
    · simp only [Bool.not_eq_true] at he
      simp only [he, Bool.false_eq_true, if_false]
      exact ⟨h, trivial⟩

theorem personName_error_msg (md : List (String × String))
    (fn : Option String) (m : String)
    (h : personName md fn = .error m) :
    m = "\x27NoneType\x27 object has no attribute \x27replace\x27" := by
  cases fn with
  | some f =>
    unfold personName personNameFallback at h
    split at h
    · split at h
      · split at h
        · exact Except.noConfusion h
        · exact Except.noConfusion h
      · exact Except.noConfusion h
    · exact Except.noConfusion h
  | none =>
    unfold personName personNameFallback at h
    split at h
    · split at h
      · split at h
        · injection h with h
          exact h.symm
        · exact Except.noConfusion h
      · injection h with h
        exact h.symm
    · injection h with h
      exact h.symm

/-- Terminal shape of the record written by generate_analysis_job: when
the analysis job is present and unexpired, the body leaves it either in
the error shape (status error, analysis_error substatus, a message that
is nonempty unless it came verbatim from the LLM collaborator, the
report field untouched) or, exactly when the LLM call returned a report,
in the done shape. -/
theorem analysis_run_final (sA : JobStore) (now : Int) (ajid : String)
    (cji : Option String) (llm : Except String String) (a0 : JobRecord)
    (hA : getEntry sA.jobs ajid = some a0)
    (hlive : now - a0.created_at ≤ sA.retention_seconds) :
    ∃ rfin, getEntry (generate_analysis_job sA now ajid cji llm).store.jobs ajid
        = some rfin ∧
      ((rfin.status = "error" ∧ rfin.substatus = some "analysis_error" ∧
         (∃ m, rfin.error = some m ∧ (m ≠ "" ∨ llm = .error m)) ∧
         rfin.analysis_report = a0.analysis_report ∧
         rfin.analysis_completed_at = some now) ∨
       (∃ rep, llm = .ok rep ∧ rfin.status = "done" ∧
         rfin.substatus = some "analysis_done" ∧
         rfin.analysis_report = some rep ∧ rfin.error = a0.error ∧
         rfin.analysis_progress = 100 ∧
         rfin.analysis_completed_at = some now)) := by
  have hs1 : getEntry (sA.update ajid (analysisRunningUpd now)).jobs ajid
      = some (applyUpdates a0 (analysisRunningUpd now)) :=
    getEntry_update_self sA ajid (analysisRunningUpd now) a0 hA
  have hs1ret : (sA.update ajid (analysisRunningUpd now)).retention_seconds
      = sA.retention_seconds := update_retention sA ajid (analysisRunningUpd now)
  have hlive1 : now - (applyUpdates a0 (analysisRunningUpd now)).created_at
      ≤ (sA.update ajid (analysisRunningUpd now)).retention_seconds := by
    rw [hs1ret, applyUpdates_created_at]
    exact hlive
  have hget1 : (sA.update ajid (analysisRunningUpd now)).get now ajid
      = (some (applyUpdates a0 (analysisRunningUpd now)),
         sA.update ajid (analysisRunningUpd now)) :=
    get_of_live _ now ajid _ hs1 hlive1
  simp only [generate_analysis_job, hget1]
  cases hst : (if truthy (applyUpdates a0 (analysisRunningUpd now)).chart_job_id
      then (applyUpdates a0 (analysisRunningUpd now)).chart_job_id else cji) with
  | none =>
    refine ⟨_, getEntry_update_self _ ajid _ _ hs1, Or.inl ?_⟩
    refine ⟨rfl, rfl, ⟨_, rfl, Or.inl (by decide)⟩, ?_, rfl⟩
    simp [applyUpdates, analysisErrUpd, analysisRunningUpd, noUpdates]
  | some cid =>
    by_cases hcid : cid = ""
    · simp only [hcid, if_pos rfl]
      refine ⟨_, getEntry_update_self _ ajid _ _ hs1, Or.inl ?_⟩
      refine ⟨rfl, rfl, ⟨_, rfl, Or.inl (by decide)⟩, ?_, rfl⟩
      simp [applyUpdates, analysisErrUpd, analysisRunningUpd, noUpdates]
    · simp only [if_neg hcid]
      obtain ⟨hs2, hs2ret⟩ := get_preserves_live_entry
        (sA.update ajid (analysisRunningUpd now)) now cid ajid _ hs1 hlive1
      cases hg2 : ((sA.update ajid (analysisRunningUpd now)).get now cid).1 with
      | none =>
        refine ⟨_, getEntry_update_self _ ajid _ _ hs2, Or.inl ?_⟩
        refine ⟨rfl, rfl, ⟨_, rfl, Or.inl (append_ne_empty_left _ _ (by decide))⟩,
          ?_, rfl⟩
        simp [applyUpdates, analysisErrUpd, analysisRunningUpd, noUpdates]
      | some chart_job =>
        by_cases hready : chart_job.status ≠ "done" ∨ ¬ truthy chart_job.svg_path
        · simp only [if_pos hready]
          refine ⟨_, getEntry_update_self _ ajid _ _ hs2, Or.inl ?_⟩
          refine ⟨rfl, rfl, ⟨_, rfl, Or.inl (by decide)⟩, ?_, rfl⟩
          simp [applyUpdates, analysisErrUpd, analysisRunningUpd, noUpdates]
        · simp only [if_neg hready]
          have hs4 : getEntry ((((sA.update ajid (analysisRunningUpd now)).get
              now cid).2).update ajid (progressUpd 10)).jobs ajid
              = some (applyUpdates (applyUpdates a0 (analysisRunningUpd now))
                  (progressUpd 10)) :=
            getEntry_update_self _ ajid (progressUpd 10) _ hs2
          cases hpn : personName chart_job.metadata chart_job.filename with
          | error m =>
            refine ⟨_, getEntry_update_self _ ajid _ _ hs4, Or.inl ?_⟩
            have hm := personName_error_msg chart_job.metadata chart_job.filename m hpn
            refine ⟨rfl, rfl, ⟨m, rfl, Or.inl (by rw [hm]; decide)⟩, ?_, rfl⟩
            simp [applyUpdates, analysisErrUpd, analysisRunningUpd, progressUpd,
              noUpdates]
          | ok person =>
            have hs5 := getEntry_update_self _ ajid (progressUpd 20) _ hs4
            cases hllm : llm with
            | error m =>
              refine ⟨_, getEntry_update_self _ ajid _ _ hs5, Or.inl ?_⟩
              refine ⟨rfl, rfl, ⟨m, rfl, Or.inr rfl⟩, ?_, rfl⟩
              simp [applyUpdates, analysisErrUpd, analysisRunningUpd, progressUpd,
                noUpdates]
            | ok rep =>
              have hs6 := getEntry_update_self _ ajid (progressUpd 90) _ hs5
              refine ⟨_, getEntry_update_self _ ajid (analysisDoneUpd rep now) _ hs6,
                Or.inr ⟨rep, rfl, rfl, rfl, rfl, ?_, rfl, rfl⟩⟩
              simp [applyUpdates, analysisDoneUpd, analysisRunningUpd, progressUpd,
                noUpdates]

theorem validate_error_msg (cy : Int) (f : FormData) (e : String)
    (h : validate_birth_data cy f = .error e) :
    ∃ e0, e = "Invalid input: " ++ e0 := by
  unfold validate_birth_data at h
  cases hi : validateInner cy f with
  | ok v => rw [hi] at h; exact Except.noConfusion h
  | error e0 => rw [hi] at h; injection h with h; exact ⟨e0, h.symm⟩

/-- Terminal shape of the record written by generate_chart_job: with the
job present, the body always writes exactly one terminal update, done
with both result fields and a cleared error, or error with cleared
result fields and a message that is nonempty unless it came verbatim
from a ValueError of the chart collaborator. -/
theorem chart_run_final (s : JobStore) (cy : Int) (job_id : String)
    (f : FormData) (c : ChartGenOutcome) (r0 : JobRecord)
    (hmem : getEntry s.jobs job_id = some r0) :
    ∃ rfin, getEntry (generate_chart_job s cy job_id f c).jobs job_id
        = some rfin ∧
      ((rfin.status = "done" ∧ rfin.filename.isSome ∧ rfin.svg_path.isSome ∧
         rfin.error = none) ∨
       (rfin.status = "error" ∧ rfin.filename = none ∧ rfin.svg_path = none ∧
         ∃ m, rfin.error = some m ∧
           (m ≠ "" ∨ c = ChartGenOutcome.valueError m))) := by
  have hrun := getEntry_update_self s job_id chartRunningUpd r0 hmem
  simp only [generate_chart_job]
  cases hv : validate_birth_data cy f with
  | error e =>
    obtain ⟨e0, he0⟩ := validate_error_msg cy f e hv
    refine ⟨_, getEntry_update_self _ job_id (chartErrUpd e) _ hrun, Or.inr ?_⟩
    refine ⟨rfl, rfl, rfl, e, rfl,
      Or.inl (he0 ▸ append_ne_empty_left _ _ (by decide))⟩
  | ok v =>
    cases c with
    | success fn sp =>
      exact ⟨_, getEntry_update_self _ job_id (chartDoneUpd fn sp) _ hrun,
        Or.inl ⟨rfl, rfl, rfl, rfl⟩⟩
    | valueError m =>
      exact ⟨_, getEntry_update_self _ job_id (chartErrUpd m) _ hrun,
        Or.inr ⟨rfl, rfl, rfl, m, rfl, Or.inr rfl⟩⟩
    | fileNotFoundError m =>
      exact ⟨_, getEntry_update_self _ job_id
          (chartErrUpd ("Chart generation failed: " ++ m)) _ hrun,
        Or.inr ⟨rfl, rfl, rfl, _, rfl,
          Or.inl (append_ne_empty_left _ _ (by decide))⟩⟩
    | unexpectedError m =>
      exact ⟨_, getEntry_update_self _ job_id
          (chartErrUpd ("Unexpected error: " ++ m)) _ hrun,
        Or.inr ⟨rfl, rfl, rfl, _, rfl,
          Or.inl (append_ne_empty_left _ _ (by decide))⟩⟩

/-- C3: every completed execution of a task body, chart or analysis,
leaves the record's status in the done or error terminal states, never
at running, with exactly one of the result fields or the error field
populated; while the record is pending (as created by add) or running
(after the step-1 update) neither is populated. -/
theorem claim_task_body_terminal (s : JobStore) (cy : Int) (job_id : String)
    (f : FormData) (c : ChartGenOutcome) (r0 : JobRecord)
    (hmem : getEntry s.jobs job_id = some r0)
    (hcmsg : ∀ m, c = ChartGenOutcome.valueError m → m ≠ "")
    (sA : JobStore) (now : Int) (ajid : String) (cji : Option String)
    (llm : Except String String) (a0 : JobRecord)
    (hA : getEntry sA.jobs ajid = some a0)
    (hfreshA : a0.analysis_report = none ∧ a0.error = none)
    (hliveA : now - a0.created_at ≤ sA.retention_seconds)
    (hllm : ∀ m, llm = Except.error m → m ≠ "") :
    (∃ r, getEntry (generate_chart_job s cy job_id f c).jobs job_id = some r ∧
      (r.status = "done" ∨ r.status = "error") ∧
      (r.status = "done" → r.filename.isSome ∧ r.svg_path.isSome ∧
        r.error = none) ∧
      (r.status = "error" → r.filename = none ∧ r.svg_path = none ∧
        ∃ m, r.error = some m ∧ m ≠ "")) ∧
    (r0.filename = none → r0.svg_path = none → r0.error = none →
      ∃ r1, getEntry (s.update job_id chartRunningUpd).jobs job_id = some r1 ∧
        r1.status = "running" ∧ r1.filename = none ∧ r1.svg_path = none ∧
        r1.error = none) ∧
    (∀ (sP : JobStore) (t : Int) (pid st jt : String) (cid : Option String)
        (md : Option (List (String × String))),
      ∃ rp, getEntry ((sP.add t pid st jt cid md)).jobs pid = some rp ∧
        rp.status = st ∧ rp.filename = none ∧ rp.svg_path = none ∧
        rp.error = none ∧ rp.analysis_report = none) ∧
    (∃ r, getEntry (generate_analysis_job sA now ajid cji llm).store.jobs ajid
        = some r ∧
      (r.status = "done" ∨ r.status = "error") ∧
      (r.status = "done" → r.analysis_report.isSome ∧ r.error = none) ∧
      (r.status = "error" → r.analysis_report = none ∧
        ∃ m, r.error = some m ∧ m ≠ "")) := by
  refine ⟨?_, ?_, ?_, ?_⟩
  · obtain ⟨rfin, hget, hcase⟩ := chart_run_final s cy job_id f c r0 hmem
    refine ⟨rfin, hget, ?_, ?_, ?_⟩
    · rcases hcase with ⟨h1, _⟩ | ⟨h1, _⟩
      · exact Or.inl h1
      · exact Or.inr h1
    · intro hd
      rcases hcase with ⟨_, h2, h3, h4⟩ | ⟨h1, _⟩
      · exact ⟨h2, h3, h4⟩
      · rw [hd] at h1; exact absurd h1 (by decide)
    · intro he
      rcases hcase with ⟨h1, _⟩ | ⟨_, h2, h3, m, h4, h5⟩
      · rw [he] at h1; exact absurd h1 (by decide)
      · refine ⟨h2, h3, m, h4, ?_⟩
        rcases h5 with h5 | h5
        · exact h5
        · exact hcmsg m h5
  · intro hf hs he
    refine ⟨_, getEntry_update_self s job_id chartRunningUpd r0 hmem,
      rfl, ?_, ?_, ?_⟩ <;>
      simp [applyUpdates, chartRunningUpd, noUpdates, hf, hs, he]
  · intro sP t pid st jt cid md
    exact ⟨addedRecord t st jt cid md,
      getEntry_add_self sP t pid st jt cid md, rfl, rfl, rfl, rfl, rfl⟩
  · obtain ⟨rfin, hget, hcase⟩ :=
      analysis_run_final sA now ajid cji llm a0 hA hliveA
    refine ⟨rfin, hget, ?_, ?_, ?_⟩
    · rcases hcase with ⟨h1, _⟩ | ⟨rep, _, h1, _⟩
      · exact Or.inr h1
      · exact Or.inl h1
    · intro hd
      rcases hcase with ⟨h1, _⟩ | ⟨rep, _, _, _, h4, h5, _⟩
      · rw [hd] at h1; exact absurd h1 (by decide)
      · rw [h5, hfreshA.2]
        simp [h4]
    · intro he
      rcases hcase with ⟨_, _, ⟨m, hm, hm2⟩, hrep, _⟩ | ⟨rep, _, h1, _⟩
      · refine ⟨by rw [hrep, hfreshA.1], m, hm, ?_⟩
        rcases hm2 with hm2 | hm2
        · exact hm2
        · exact hllm m hm2
      · rw [he] at h1; exact absurd h1 (by decide)

/-- Witness for C3: a chart job on the sample store with in-range form
data and a successful generation outcome, and an analysis job on the
two-record analysis store with a successful LLM call. -/
theorem claim_task_body_terminal_witness :
    (∃ r, getEntry (generate_chart_job sampleStore 2026 "k" goodForm
        (ChartGenOutcome.success "f.svg" "/p/f.svg")).jobs "k" = some r ∧
      (r.status = "done" ∨ r.status = "error") ∧
      (r.status = "done" → r.filename.isSome ∧ r.svg_path.isSome ∧
        r.error = none) ∧
      (r.status = "error" → r.filename = none ∧ r.svg_path = none ∧
        ∃ m, r.error = some m ∧ m ≠ "")) ∧
    ((sampleRecord 0).filename = none → (sampleRecord 0).svg_path = none →
      (sampleRecord 0).error = none →
      ∃ r1, getEntry (sampleStore.update "k" chartRunningUpd).jobs "k"
          = some r1 ∧
        r1.status = "running" ∧ r1.filename = none ∧ r1.svg_path = none ∧
        r1.error = none) ∧
    (∀ (sP : JobStore) (t : Int) (pid st jt : String) (cid : Option String)
        (md : Option (List (String × String))),
      ∃ rp, getEntry ((sP.add t pid st jt cid md)).jobs pid = some rp ∧
        rp.status = st ∧ rp.filename = none ∧ rp.svg_path = none ∧
        rp.error = none ∧ rp.analysis_report = none) ∧
    (∃ r, getEntry (generate_analysis_job analysisStore 5 "a1" none
        (Except.ok "the report")).store.jobs "a1" = some r ∧
      (r.status = "done" ∨ r.status = "error") ∧
      (r.status = "done" → r.analysis_report.isSome ∧ r.error = none) ∧
      (r.status = "error" → r.analysis_report = none ∧
        ∃ m, r.error = some m ∧ m ≠ "")) :=
  claim_task_body_terminal sampleStore 2026 "k" goodForm
    (ChartGenOutcome.success "f.svg" "/p/f.svg") (sampleRecord 0)
    (by decide) (fun m h => ChartGenOutcome.noConfusion h)
    analysisStore 5 "a1" none (Except.ok "the report") analysisRecord
    (by decide) (by decide) (by decide)
    (fun m h => Except.noConfusion h)

/-- C8: a chart job whose validation raises the month range error ends
with status error, an error string containing "Month must be between 1
and 12", and cleared filename and svg_path. -/
theorem claim_chart_month_range_error (s : JobStore) (cy : Int)
    (job_id : String) (f : FormData) (c : ChartGenOutcome) (r0 : JobRecord)
    (hmem : getEntry s.jobs job_id = some r0)
    (hval : validate_birth_data cy f
      = .error ("Invalid input: " ++ "Month must be between 1 and 12")) :
    ∃ r, getEntry (generate_chart_job s cy job_id f c).jobs job_id = some r ∧
      r.status = "error" ∧
      r.error = some ("Invalid input: " ++ "Month must be between 1 and 12") ∧
      (∃ pre, r.error = some (pre ++ "Month must be between 1 and 12")) ∧
      r.filename = none ∧ r.svg_path = none := by
  have hrun := getEntry_update_self s job_id chartRunningUpd r0 hmem
  simp only [generate_chart_job, hval]
  exact ⟨_, getEntry_update_self _ job_id _ _ hrun, rfl, rfl,
    ⟨"Invalid input: ", rfl⟩, rfl, rfl⟩

/-- Witness for C8: the sample store with a form whose month field is
13; validation produces exactly the month range error. -/
theorem claim_chart_month_range_error_witness :
    ∃ r, getEntry (generate_chart_job sampleStore 2026 "k" badMonthForm
        (ChartGenOutcome.success "f.svg" "/p/f.svg")).jobs "k" = some r ∧
      r.status = "error" ∧
      r.error = some ("Invalid input: " ++ "Month must be between 1 and 12") ∧
      (∃ pre, r.error = some (pre ++ "Month must be between 1 and 12")) ∧
      r.filename = none ∧ r.svg_path = none :=
  claim_chart_month_range_error sampleStore 2026 "k" badMonthForm
    (ChartGenOutcome.success "f.svg" "/p/f.svg") (sampleRecord 0)
    (by decide) (by decide)

theorem notFound_ne_notReady (cid : String) :
    ("Referenced chart job not found or expired: " ++ cid)
      ≠ "Referenced chart is not available (chart must be done)" := by
  intro h
  obtain ⟨l⟩ := cid
  have hd : ("Referenced chart job not found or expired: ").data ++ l
      = ("Referenced chart is not available (chart must be done)").data :=
    congrArg String.data h
  have htake := congrArg (List.take 18) hd
  rw [List.take_append_eq_append_take] at htake
  have hlen : (("Referenced chart job not found or expired: ").data).length = 43 :=
    by decide
  rw [hlen] at htake
  norm_num at htake
  exact absurd htake (by decide)

/-- C5: an analysis job whose referenced chart job is present but not
done (or has an empty svg_path) terminates with status error and the
chart-not-ready message, and the LLM collaborator is never invoked. -/
theorem claim_analysis_chart_not_ready (sA : JobStore) (now : Int)
    (ajid cid : String) (cji : Option String) (llm : Except String String)
    (a0 cj : JobRecord)
    (hA : getEntry sA.jobs ajid = some a0)
    (hliveA : now - a0.created_at ≤ sA.retention_seconds)
    (hcid : a0.chart_job_id = some cid) (hcidne : cid ≠ "")
    (hne : cid ≠ ajid)
    (hC : getEntry sA.jobs cid = some cj)
    (hliveC : now - cj.created_at ≤ sA.retention_seconds)
    (hnotready : cj.status ≠ "done" ∨ ¬ truthy cj.svg_path) :
    (generate_analysis_job sA now ajid cji llm).llmInvoked = false ∧
    ∃ r, getEntry (generate_analysis_job sA now ajid cji llm).store.jobs ajid
        = some r ∧ r.status = "error" ∧ r.substatus = some "analysis_error" ∧
      r.error = some "Referenced chart is not available (chart must be done)" := by
  have hs1 : getEntry (sA.update ajid (analysisRunningUpd now)).jobs ajid
      = some (applyUpdates a0 (analysisRunningUpd now)) :=
    getEntry_update_self sA ajid (analysisRunningUpd now) a0 hA
  have hlive1 : now - (applyUpdates a0 (analysisRunningUpd now)).created_at
      ≤ (sA.update ajid (analysisRunningUpd now)).retention_seconds := by
    rw [update_retention, applyUpdates_created_at]; exact hliveA
  have hget1 := get_of_live _ now ajid _ hs1 hlive1
  have hcid1 : (applyUpdates a0 (analysisRunningUpd now)).chart_job_id
      = some cid := hcid
  have hC1 : getEntry (sA.update ajid (analysisRunningUpd now)).jobs cid
      = some cj := by
    rw [getEntry_update_ne sA ajid cid (analysisRunningUpd now) hne]; exact hC
  have hliveC1 : now - cj.created_at
      ≤ (sA.update ajid (analysisRunningUpd now)).retention_seconds := by
    rw [update_retention]; exact hliveC
  have hget2 := get_of_live _ now cid _ hC1 hliveC1
  have htr : truthy (some cid) = true := by simp [truthy, hcidne]
  simp only [generate_analysis_job, hget1, hcid1, htr, if_true, hget2,
    if_neg hcidne, if_pos hnotready]
  exact ⟨rfl, _, getEntry_update_self _ ajid _ _ hs1, rfl, rfl, rfl⟩

/-- Witness for C5: the analysis job in the not-ready sample store,
whose chart job is still running. -/
theorem claim_analysis_chart_not_ready_witness :
    (generate_analysis_job analysisStoreNotReady 5 "a1" none
        (Except.ok "rep")).llmInvoked = false ∧
    ∃ r, getEntry (generate_analysis_job analysisStoreNotReady 5 "a1" none
        (Except.ok "rep")).store.jobs "a1" = some r ∧
      r.status = "error" ∧ r.substatus = some "analysis_error" ∧
      r.error = some "Referenced chart is not available (chart must be done)" :=
  claim_analysis_chart_not_ready analysisStoreNotReady 5 "a1" "c1" none
    (Except.ok "rep") analysisRecord runningChartRecord
    (by decide) (by decide) (by decide) (by decide) (by decide) (by decide)
    (by decide) (by decide)

/-- C6: an analysis job whose referenced chart id is absent from the
store terminates with status error carrying the not-found message, the
LLM collaborator is never invoked, and that message differs from the
not-done message of C5, so the two failures are distinguishable. -/
theorem claim_analysis_chart_not_found (sA : JobStore) (now : Int)
    (ajid cid : String) (cji : Option String) (llm : Except String String)
    (a0 : JobRecord)
    (hA : getEntry sA.jobs ajid = some a0)
    (hliveA : now - a0.created_at ≤ sA.retention_seconds)
    (hcid : a0.chart_job_id = some cid) (hcidne : cid ≠ "")
    (hne : cid ≠ ajid)
    (hC : getEntry sA.jobs cid = none) :
    (generate_analysis_job sA now ajid cji llm).llmInvoked = false ∧
    (∃ r, getEntry (generate_analysis_job sA now ajid cji llm).store.jobs ajid
        = some r ∧ r.status = "error" ∧
      r.error = some ("Referenced chart job not found or expired: " ++ cid)) ∧
    ("Referenced chart job not found or expired: " ++ cid)
      ≠ "Referenced chart is not available (chart must be done)" := by
  have hs1 : getEntry (sA.update ajid (analysisRunningUpd now)).jobs ajid
      = some (applyUpdates a0 (analysisRunningUpd now)) :=
    getEntry_update_self sA ajid (analysisRunningUpd now) a0 hA
  have hlive1 : now - (applyUpdates a0 (analysisRunningUpd now)).created_at
      ≤ (sA.update ajid (analysisRunningUpd now)).retention_seconds := by
    rw [update_retention, applyUpdates_created_at]; exact hliveA
  have hget1 := get_of_live _ now ajid _ hs1 hlive1
  have hcid1 : (applyUpdates a0 (analysisRunningUpd now)).chart_job_id
      = some cid := hcid
  have hC1 : getEntry (sA.update ajid (analysisRunningUpd now)).jobs cid
      = none := by
    rw [getEntry_update_ne sA ajid cid (analysisRunningUpd now) hne]; exact hC
  have hget2 := get_of_absent _ now cid hC1
  have htr : truthy (some cid) = true := by simp [truthy, hcidne]
  simp only [generate_analysis_job, hget1, hcid1, htr, if_true, hget2,
    if_neg hcidne]
  exact ⟨rfl, ⟨_, getEntry_update_self _ ajid _ _ hs1, rfl, rfl⟩,
    notFound_ne_notReady cid⟩

/-- Witness for C6: the analysis job of the sample store with no chart
record under c1. -/
theorem claim_analysis_chart_not_found_witness :
    (generate_analysis_job analysisStoreNoChart 5 "a1" none
        (Except.ok "rep")).llmInvoked = false ∧
    (∃ r, getEntry (generate_analysis_job analysisStoreNoChart 5 "a1" none
        (Except.ok "rep")).store.jobs "a1" = some r ∧
      r.status = "error" ∧
      r.error = some ("Referenced chart job not found or expired: " ++ "c1")) ∧
    ("Referenced chart job not found or expired: " ++ "c1")
      ≠ "Referenced chart is not available (chart must be done)" :=
  claim_analysis_chart_not_found analysisStoreNoChart 5 "a1" "c1" none
    (Except.ok "rep") analysisRecord
    (by decide) (by decide) (by decide) (by decide) (by decide) (by decide)

/-- Shape of the update trace of generate_analysis_job: an error update
after the running update, after progress 10, or after progress 20 (the
last exactly when the LLM call failed), or the full success trace. -/
theorem analysis_trace_cases (sA : JobStore) (now : Int) (ajid : String)
    (cji : Option String) (llm : Except String String) :
    (∃ m, (generate_analysis_job sA now ajid cji llm).trace
        = [analysisRunningUpd now, analysisErrUpd m now] ∧
      (generate_analysis_job sA now ajid cji llm).llmInvoked = false) ∨
    (∃ m, (generate_analysis_job sA now ajid cji llm).trace
        = [analysisRunningUpd now, progressUpd 10, analysisErrUpd m now] ∧
      (generate_analysis_job sA now ajid cji llm).llmInvoked = false) ∨
    (∃ m, llm = Except.error m ∧
      (generate_analysis_job sA now ajid cji llm).trace
        = [analysisRunningUpd now, progressUpd 10, progressUpd 20,
           analysisErrUpd m now] ∧
      (generate_analysis_job sA now ajid cji llm).llmInvoked = true) ∨
    (∃ rep, llm = Except.ok rep ∧
      (generate_analysis_job sA now ajid cji llm).trace
        = [analysisRunningUpd now, progressUpd 10, progressUpd 20,
           progressUpd 90, analysisDoneUpd rep now] ∧
      (generate_analysis_job sA now ajid cji llm).llmInvoked = true) := by
  simp only [generate_analysis_job]
  split
  · exact Or.inl ⟨_, rfl, rfl⟩
  · split
    · exact Or.inl ⟨_, rfl, rfl⟩
    · split
      · exact Or.inl ⟨_, rfl, rfl⟩
      · split
        · exact Or.inl ⟨_, rfl, rfl⟩
        · split
          · exact Or.inl ⟨_, rfl, rfl⟩
          · split
            · exact Or.inr (Or.inl ⟨_, rfl, rfl⟩)
            · split
              · exact Or.inr (Or.inr (Or.inl ⟨_, rfl, rfl, rfl⟩))
              · exact Or.inr (Or.inr (Or.inr ⟨_, rfl, rfl, rfl⟩))

/-- C9: across the update sequence of one analysis-job execution, the
written analysis_progress values stay within 0-100 and never decrease;
the body starts with the running update at progress 0; on the success
path the writes pass through 0, 10, 20, 90 and reach 100 in the same
update that sets status done and substatus analysis_done; every failure
path ends with the error update carrying substatus analysis_error, and
both terminal updates stamp analysis_completed_at. -/
theorem claim_analysis_progress (sA : JobStore) (now : Int) (ajid : String)
    (cji : Option String) (llm : Except String String) :
    List.Chain' (fun a b => a ≤ b)
      ((generate_analysis_job sA now ajid cji llm).trace.filterMap
        (fun u => u.analysis_progress)) ∧
    (∀ p ∈ (generate_analysis_job sA now ajid cji llm).trace.filterMap
        (fun u => u.analysis_progress), 0 ≤ p ∧ p ≤ 100) ∧
    (generate_analysis_job sA now ajid cji llm).trace.head?
      = some (analysisRunningUpd now) ∧
    (∀ rep, llm = Except.ok rep →
      (generate_analysis_job sA now ajid cji llm).llmInvoked = true →
      (generate_analysis_job sA now ajid cji llm).trace
        = [analysisRunningUpd now, progressUpd 10, progressUpd 20,
           progressUpd 90, analysisDoneUpd rep now] ∧
      (generate_analysis_job sA now ajid cji llm).trace.filterMap
        (fun u => u.analysis_progress) = [0, 10, 20, 90, 100]) ∧
    (((generate_analysis_job sA now ajid cji llm).llmInvoked = false ∨
        (∃ m, llm = Except.error m)) →
      ∃ m, (generate_analysis_job sA now ajid cji llm).trace.getLast?
        = some (analysisErrUpd m now)) ∧
    (∀ rep t, (analysisDoneUpd rep t).status = some "done" ∧
      (analysisDoneUpd rep t).substatus = some "analysis_done" ∧
      (analysisDoneUpd rep t).analysis_progress = some 100 ∧
      (analysisDoneUpd rep t).analysis_completed_at = some t) ∧
    (∀ m t, (analysisErrUpd m t).status = some "error" ∧
      (analysisErrUpd m t).substatus = some "analysis_error" ∧
      (analysisErrUpd m t).analysis_completed_at = some t ∧
      (analysisErrUpd m t).analysis_progress = none) := by
  obtain ⟨m, htr, hinv⟩ | ⟨m, htr, hinv⟩ | ⟨m, hllm, htr, hinv⟩ |
      ⟨rep, hllm, htr, hinv⟩ := analysis_trace_cases sA now ajid cji llm
  · have hps : (generate_analysis_job sA now ajid cji llm).trace.filterMap
        (fun u => u.analysis_progress) = [0] := by rw [htr]; rfl
    refine ⟨?_, ?_, ?_, ?_, ?_, fun rep t => ⟨rfl, rfl, rfl, rfl⟩,
      fun m t => ⟨rfl, rfl, rfl, rfl⟩⟩
    · rw [hps]
      norm_num [List.chain'_cons, List.chain'_singleton]
    · rw [hps]; decide
    · rw [htr]; rfl
    · intro rep hrep hinvt
      rw [hinv] at hinvt
      exact Bool.noConfusion hinvt
    · intro _; exact ⟨m, by rw [htr]; rfl⟩
  · have hps : (generate_analysis_job sA now ajid cji llm).trace.filterMap
        (fun u => u.analysis_progress) = [0, 10] := by rw [htr]; rfl
    refine ⟨?_, ?_, ?_, ?_, ?_, fun rep t => ⟨rfl, rfl, rfl, rfl⟩,
      fun m t => ⟨rfl, rfl, rfl, rfl⟩⟩
    · rw [hps]
      norm_num [List.chain'_cons, List.chain'_singleton]
    · rw [hps]; decide
    · rw [htr]; rfl
    · intro rep hrep hinvt
      rw [hinv] at hinvt
      exact Bool.noConfusion hinvt
    · intro _; exact ⟨m, by rw [htr]; rfl⟩
  · have hps : (generate_analysis_job sA now ajid cji llm).trace.filterMap
        (fun u => u.analysis_progress) = [0, 10, 20] := by rw [htr]; rfl
    refine ⟨?_, ?_, ?_, ?_, ?_, fun rep t => ⟨rfl, rfl, rfl, rfl⟩,
      fun m t => ⟨rfl, rfl, rfl, rfl⟩⟩
    · rw [hps]
      norm_num [List.chain'_cons, List.chain'_singleton]
    · rw [hps]; decide
    · rw [htr]; rfl
    · intro rep hrep _
      rw [hllm] at hrep
      exact Except.noConfusion hrep
    · intro _; exact ⟨m, by rw [htr]; rfl⟩
  · have hps : (generate_analysis_job sA now ajid cji llm).trace.filterMap
        (fun u => u.analysis_progress) = [0, 10, 20, 90, 100] := by rw [htr]; rfl
    refine ⟨?_, ?_, ?_, ?_, ?_, fun rep t => ⟨rfl, rfl, rfl, rfl⟩,
      fun m t => ⟨rfl, rfl, rfl, rfl⟩⟩
    · rw [hps]
      norm_num [List.chain'_cons, List.chain'_singleton]
    · rw [hps]; decide
    · rw [htr]; rfl
    · intro rep' hrep _
      rw [hllm] at hrep
      injection hrep with hrep
      subst hrep
      exact ⟨htr, hps⟩
    · intro hfail
      rcases hfail with hf | ⟨m, hm⟩
      · rw [hinv] at hf
        exact Bool.noConfusion hf
      · rw [hllm] at hm
        exact Except.noConfusion hm

/-- Witness for C9: the successful analysis run on the sample store,
instantiating the progress theorem at a concrete input. -/
theorem claim_analysis_progress_witness :
    List.Chain' (fun a b => a ≤ b)
      ((generate_analysis_job analysisStore 5 "a1" none
          (Except.ok "rep")).trace.filterMap (fun u => u.analysis_progress)) ∧
    (∀ p ∈ (generate_analysis_job analysisStore 5 "a1" none
        (Except.ok "rep")).trace.filterMap (fun u => u.analysis_progress),
      0 ≤ p ∧ p ≤ 100) ∧
    (generate_analysis_job analysisStore 5 "a1" none
        (Except.ok "rep")).trace.head? = some (analysisRunningUpd 5) ∧
    (∀ rep, (Except.ok "rep" : Except String String) = Except.ok rep →
      (generate_analysis_job analysisStore 5 "a1" none
          (Except.ok "rep")).llmInvoked = true →
      (generate_analysis_job analysisStore 5 "a1" none
          (Except.ok "rep")).trace
        = [analysisRunningUpd 5, progressUpd 10, progressUpd 20,
           progressUpd 90, analysisDoneUpd rep 5] ∧
      (generate_analysis_job analysisStore 5 "a1" none
          (Except.ok "rep")).trace.filterMap (fun u => u.analysis_progress)
        = [0, 10, 20, 90, 100]) ∧
    (((generate_analysis_job analysisStore 5 "a1" none
          (Except.ok "rep")).llmInvoked = false ∨
        (∃ m, (Except.ok "rep" : Except String String) = Except.error m)) →
      ∃ m, (generate_analysis_job analysisStore 5 "a1" none
          (Except.ok "rep")).trace.getLast? = some (analysisErrUpd m 5)) ∧
    (∀ rep t, (analysisDoneUpd rep t).status = some "done" ∧
      (analysisDoneUpd rep t).substatus = some "analysis_done" ∧
      (analysisDoneUpd rep t).analysis_progress = some 100 ∧
      (analysisDoneUpd rep t).analysis_completed_at = some t) ∧
    (∀ m t, (analysisErrUpd m t).status = some "error" ∧
      (analysisErrUpd m t).substatus = some "analysis_error" ∧
      (analysisErrUpd m t).analysis_completed_at = some t ∧
      (analysisErrUpd m t).analysis_progress = none) :=
  claim_analysis_progress analysisStore 5 "a1" none (Except.ok "rep")

end SimpleAstro
